import Mathlib

/-!
Verification development for the maubot/karma plugin's data layer
(`karma/db.py` and the database-relevant part of `karma/bot.py`).

The SQL tables are modelled as Lean lists of rows in stored (insertion)
order: `SELECT ... WHERE` is `List.find?`/`List.filter`, `INSERT` appends,
`UPDATE` is `List.map` over the rows matched by the `WHERE` clause,
`DELETE` is `List.filter` with the negated `WHERE` clause, and
`ORDER BY col` is a stable sort on that column (ties keep stored order,
as no secondary sort key is given in the source).
-/

/-- A row of the `karma_cache` table (class `KarmaCache` in db.py):
columns `user_id, total, positive, negative`. -/
structure KarmaCache where
  user_id : String
  total : Int
  positive : Int
  negative : Int
deriving DecidableEq, Repr

/-- A row of the `karma` table (class `Karma` in db.py): primary key
`(given_to, given_by, given_in, given_for)`, unique `given_from`,
plus `given_at, value, content`. -/
structure Karma where
  given_to : String
  given_by : String
  given_in : String
  given_for : String
  given_from : String
  given_at : Int
  value : Int
  content : String
deriving DecidableEq, Repr

/-- The whole datastore: the `karma` ledger table and the `karma_cache`
aggregate table, each as a list of rows in stored order. -/
structure DB where
  karma : List Karma
  karma_cache : List KarmaCache
deriving DecidableEq, Repr

def emptyDB : DB := ⟨[], []⟩

/-- The `WHERE` clause used by `Karma.get`, `Karma.delete` and
`Karma.update`: equality on the four primary-key columns, in the order
they are compared in db.py. -/
def keyMatch (given_to given_by given_in given_for : String) (k : Karma) : Bool :=
  k.given_to == given_to && k.given_by == given_by &&
    k.given_in == given_in && k.given_for == given_for

/-- `KarmaCache.get_karma` (db.py 40-50): `SELECT * FROM karma_cache WHERE
user_id = ?`, first row or `None`. -/
def KarmaCache.get_karma (db : DB) (user_id : String) : Option KarmaCache :=
  db.karma_cache.find? (fun r => r.user_id == user_id)

/-- `KarmaCache.update` (db.py 91-96): `UPDATE karma_cache SET total,
positive, negative WHERE user_id = self.user_id`. -/
def KarmaCache.update (db : DB) (self : KarmaCache) : DB :=
  { db with karma_cache := db.karma_cache.map (fun r =>
      if r.user_id == self.user_id then
        { r with total := self.total, positive := self.positive, negative := self.negative }
      else r) }

/-- `KarmaCache.insert` (db.py 98-102): `INSERT INTO karma_cache VALUES
(user_id, total, positive, negative)`. -/
def KarmaCache.insert (db : DB) (self : KarmaCache) : DB :=
  { db with karma_cache := db.karma_cache ++ [self] }

/-- `KarmaCache.update_direct` (db.py 104-117): fetch the user's row; if it
exists, add the three diffs and write it back; otherwise insert a fresh row
holding the diffs, unless `ignore_if_not_exist`. -/
def KarmaCache.update_direct (db : DB) (user_id : String)
    (total_diff positive_diff negative_diff : Int) (ignore_if_not_exist : Bool) : DB :=
  match KarmaCache.get_karma db user_id with
  | some existing =>
      KarmaCache.update db
        { existing with total := existing.total + total_diff,
                        positive := existing.positive + positive_diff,
                        negative := existing.negative + negative_diff }
  | none =>
      if ignore_if_not_exist then db
      else KarmaCache.insert db ⟨user_id, total_diff, positive_diff, negative_diff⟩

/-- The `ORDER BY total DESC` comparison on `karma_cache` rows. Only the
`total` column is compared, exactly as in the source; ties are left in
stored order by the stable sort. -/
def cacheDesc (a b : KarmaCache) : Prop := b.total ≤ a.total

/-- The `ORDER BY total ASC` comparison on `karma_cache` rows. -/
def cacheAsc (a b : KarmaCache) : Prop := a.total ≤ b.total

instance : DecidableRel cacheDesc := fun a b => inferInstanceAs (Decidable (b.total ≤ a.total))

instance : DecidableRel cacheAsc := fun a b => inferInstanceAs (Decidable (a.total ≤ b.total))

instance : IsTotal KarmaCache cacheDesc := ⟨fun a b => le_total b.total a.total⟩

instance : IsTrans KarmaCache cacheDesc := ⟨fun _ _ _ h₁ h₂ => le_trans h₂ h₁⟩

instance : IsTotal KarmaCache cacheAsc := ⟨fun a b => le_total a.total b.total⟩

instance : IsTrans KarmaCache cacheAsc := ⟨fun _ _ _ h₁ h₂ => le_trans h₁ h₂⟩

/-- `KarmaCache.get_high` (db.py 65-69): `SELECT * FROM karma_cache ORDER BY
total DESC LIMIT limit`. -/
def KarmaCache.get_high (db : DB) (limit : Nat) : List KarmaCache :=
  (List.insertionSort cacheDesc db.karma_cache).take limit

/-- `KarmaCache.get_low` (db.py 71-75): `SELECT * FROM karma_cache ORDER BY
total ASC LIMIT limit`. -/
def KarmaCache.get_low (db : DB) (limit : Nat) : List KarmaCache :=
  (List.insertionSort cacheAsc db.karma_cache).take limit

/-- The loop body of `KarmaCache.find_index_from_top` (db.py 77-84): walk
the rows, incrementing `i` before the comparison, return `i` on a match and
`-1` after the loop. -/
def findIndexLoop (rows : List KarmaCache) (user_id : String) (i : Int) : Int :=
  match rows with
  | [] => -1
  | r :: rest => if r.user_id == user_id then i + 1 else findIndexLoop rest user_id (i + 1)

/-- `KarmaCache.find_index_from_top` (db.py 77-84): iterate over
`SELECT user_id FROM karma_cache ORDER BY total DESC` with a counter
starting at 0 incremented before each comparison; return the counter at the
first match, `-1` if the user never appears. -/
def KarmaCache.find_index_from_top (db : DB) (user_id : String) : Int :=
  findIndexLoop (List.insertionSort cacheDesc db.karma_cache) user_id 0

/-- The columns of the `karma_cache` table as declared in db.py (35-38). -/
def karmaCacheColumns : List String := ["user_id", "total", "positive", "negative"]

/-- The column names used by the INSERT statement in `KarmaCache._set_karma`
(db.py 55): `cls.t.insert().values(user_id=user_id, karma=karma)`. -/
def setKarmaInsertColumns : List String := ["user_id", "karma"]

/-- `KarmaCache.set_karma` / `_set_karma` (db.py 52-63): DELETE the user's
row, then INSERT a row giving values for columns `(user_id, karma)`. The SQL
engine rejects an INSERT that names a column absent from the table and the
enclosing transaction rolls back, modelled as `Except.error`; the (never
reached) ok-branch charitably writes the value into `total` and zeroes the
other columns, the closest the schema could come to the statement. -/
def KarmaCache.set_karma (db : DB) (user_id : String) (karma : Int) : Except String DB :=
  if setKarmaInsertColumns.all (fun col => karmaCacheColumns.contains col) then
    Except.ok { db with karma_cache :=
      db.karma_cache.filter (fun r => !(r.user_id == user_id)) ++ [⟨user_id, karma, 0, 0⟩] }
  else
    Except.error "table karma_cache has no column named karma"

/-- `Karma.all` (db.py 194-199): `SELECT * FROM karma WHERE given_to = ?`. -/
def Karma.all (db : DB) (user_id : String) : List Karma :=
  db.karma.filter (fun k => k.given_to == user_id)

/-- `KarmaCache.recalculate` (db.py 86-89): set_karma of the sum of the
values of all of the user's karma rows. -/
def KarmaCache.recalculate (db : DB) (user_id : String) : Except String DB :=
  KarmaCache.set_karma db user_id ((Karma.all db user_id).map (fun k => k.value)).sum

/-- `Karma.get` (db.py 218-230): first row matching the four-column primary
key, or `None`. -/
def Karma.get (db : DB) (given_to given_by given_in given_for : String) : Option Karma :=
  db.karma.find? (keyMatch given_to given_by given_in given_for)

/-- `Karma.is_vote_event` (db.py 209-216): true iff a row with
`given_from = event_id` exists. -/
def Karma.is_vote_event (db : DB) (event_id : String) : Bool :=
  db.karma.any (fun k => k.given_from == event_id)

/-- `Karma.export` (db.py 201-207): all rows where the user is giver or
receiver. -/
def Karma.export (db : DB) (user_id : String) : List Karma :=
  db.karma.filter (fun k => k.given_to == user_id || k.given_by == user_id)

/-- `Karma.delete` (db.py 232-240): in one transaction, DELETE the rows
matching `self`'s primary key and reverse `self`'s contribution on the
receiver's cache row (`ignore_if_not_exist=True`). -/
def Karma.delete (db : DB) (self : Karma) : DB :=
  KarmaCache.update_direct
    { db with karma := db.karma.filter (fun k =>
        !(keyMatch self.given_to self.given_by self.given_in self.given_for k)) }
    self.given_to (-self.value)
    (if self.value > 0 then -self.value else 0)
    (if self.value < 0 then self.value else 0) true

/-- `Karma.insert` (db.py 242-252): set `given_at` to the current time, then
in one transaction INSERT the row and add its contribution to the receiver's
cache row. -/
def Karma.insert (db : DB) (self : Karma) (now : Int) : DB :=
  KarmaCache.update_direct
    { db with karma := db.karma ++ [{ self with given_at := now }] }
    self.given_to self.value
    (if self.value > 0 then self.value else 0)
    (if self.value < 0 then -self.value else 0) false

/-- `Karma.update` (db.py 254-277): refresh `given_at`, flip `value` to
`new_value`; in one transaction UPDATE the rows matching `self`'s primary
key (writing `given_from`, `value`, `given_at`) and apply the delta between
old and new value to the receiver's cache row. -/
def Karma.update (db : DB) (self : Karma) (new_value : Int) (now : Int) : DB :=
  KarmaCache.update_direct
    { db with karma := db.karma.map (fun k =>
        if keyMatch self.given_to self.given_by self.given_in self.given_for k then
          { k with given_from := self.given_from, value := new_value, given_at := now }
        else k) }
    self.given_to (new_value - self.value)
    ((if self.value > 0 then -self.value else 0) + (if new_value > 0 then new_value else 0))
    ((if self.value < 0 then self.value else 0) + (if new_value < 0 then -new_value else 0))
    false

/-- Modelled from the spec: `retract_by_origin` first looks up the
VoteRecord whose originating event id (`given_from`) matches. bot.py line
108 calls `self.karma_t.get_by_given_from(evt.redacts)` but db.py defines no
such method, so the lookup itself is missing from the source and is taken
from the spec's words ("Looks up the VoteRecord whose `originating_event_id`
matches"). -/
def Karma.get_by_given_from (db : DB) (event_id : String) : Option Karma :=
  db.karma.find? (fun k => k.given_from == event_id)

/-- `KarmaBot.redact` (bot.py 106-111): on a redaction, look up the vote
record by its originating event id and delete it if found; do nothing
otherwise. -/
def KarmaBot.redact (db : DB) (redacts : String) : DB :=
  match Karma.get_by_given_from db redacts with
  | some karma => Karma.delete db karma
  | none => db

/-- The structured result of applying a vote, per the branch taken by
`KarmaBot._vote` (bot.py 227-237). -/
inductive Outcome where
  | created
  | updated
  | unchanged
deriving DecidableEq, Repr

/-- The datastore-relevant core of `KarmaBot._vote` (bot.py 227-237): fetch
the existing record for the key; same value means no mutation ("already
voted"), a different value updates it in place, no record inserts a fresh
one carrying the originating event id `given_from`. -/
def KarmaBot.vote (db : DB) (given_to given_by given_in given_for given_from : String)
    (value : Int) (content : String) (now : Int) : Outcome × DB :=
  match Karma.get db given_to given_by given_in given_for with
  | some existing =>
      if existing.value == value then (Outcome.unchanged, db)
      else (Outcome.updated, Karma.update db existing value now)
  | none =>
      (Outcome.created,
        Karma.insert db ⟨given_to, given_by, given_in, given_for, given_from, 0, value, content⟩ now)

/-- One call into the ledger's mutating entry points: a vote application
(which internally inserts, updates or leaves alone) or a redaction (which
internally deletes). -/
inductive LedgerOp where
  | vote (given_to given_by given_in given_for given_from : String)
      (value : Int) (content : String) (now : Int)
  | redact (event_id : String)

def stepOp (db : DB) (op : LedgerOp) : DB :=
  match op with
  | .vote gt gb gi gf gfrom v c n => (KarmaBot.vote db gt gb gi gf gfrom v c n).2
  | .redact eid => KarmaBot.redact db eid

/-- Run a sequence of mutating operations from the empty datastore. -/
def runOps (ops : List LedgerOp) : DB := ops.foldl stepOp emptyDB

/-- The per-row aggregate invariant: `total = positive - negative`. -/
def cacheInv (rows : List KarmaCache) : Prop :=
  ∀ r ∈ rows, r.total = r.positive - r.negative

/-- The row shape returned by `Karma.get_user_stats` (db.py UserKarmaStats). -/
structure UserKarmaStats where
  user_id : String
  total : Int
  positive : Int
  negative : Int
deriving DecidableEq, Repr

/-- The row shape returned by `Karma.get_event_stats` (db.py
EventKarmaStats). -/
structure EventKarmaStats where
  event_id : String
  sender : String
  content : String
  total : Int
  positive : Int
  negative : Int
deriving DecidableEq, Repr

/-- SQL `GROUP BY` key enumeration: the distinct values of the grouping
column in order of first appearance in the stored rows. -/
def distinctKeys (keys : List String) : List String :=
  keys.foldl (fun acc k => if acc.contains k then acc else acc ++ [k]) []

/-- The aggregate row of `Karma.get_user_stats` for one `given_to` group:
`SUM(value)`, `SUM(CASE WHEN value > 0 THEN value ELSE 0 END)` and
`ABS(SUM(CASE WHEN value < 0 THEN value ELSE 0 END))` over the group. -/
def Karma.userStatsFor (db : DB) (user_id : String) : UserKarmaStats :=
  let rows := db.karma.filter (fun k => k.given_to == user_id)
  ⟨user_id,
    (rows.map (fun k => k.value)).sum,
    (rows.map (fun k => if k.value > 0 then k.value else 0)).sum,
    |(rows.map (fun k => if k.value < 0 then k.value else 0)).sum|⟩

/-- The aggregate row of `Karma.get_event_stats` for one `given_for` group:
the same three sums, plus the ungrouped `given_to` and `content` columns,
which SQL takes from an arbitrary row of the group — modelled as the first
stored row. -/
def Karma.eventStatsFor (db : DB) (event_id : String) : EventKarmaStats :=
  let rows := db.karma.filter (fun k => k.given_for == event_id)
  ⟨event_id,
    ((rows.head?).map (fun k => k.given_to)).getD "",
    ((rows.head?).map (fun k => k.content)).getD "",
    (rows.map (fun k => k.value)).sum,
    (rows.map (fun k => if k.value > 0 then k.value else 0)).sum,
    |(rows.map (fun k => if k.value < 0 then k.value else 0)).sum|⟩

/-- `ORDER BY total DESC` on user stat rows. -/
def userDesc (a b : UserKarmaStats) : Prop := b.total ≤ a.total

/-- `ORDER BY total ASC` on user stat rows. -/
def userAsc (a b : UserKarmaStats) : Prop := a.total ≤ b.total

/-- `ORDER BY total DESC` on event stat rows. -/
def eventDesc (a b : EventKarmaStats) : Prop := b.total ≤ a.total

/-- `ORDER BY total ASC` on event stat rows. -/
def eventAsc (a b : EventKarmaStats) : Prop := a.total ≤ b.total

instance : DecidableRel userDesc := fun a b => inferInstanceAs (Decidable (b.total ≤ a.total))

instance : DecidableRel userAsc := fun a b => inferInstanceAs (Decidable (a.total ≤ b.total))

instance : DecidableRel eventDesc := fun a b => inferInstanceAs (Decidable (b.total ≤ a.total))

instance : DecidableRel eventAsc := fun a b => inferInstanceAs (Decidable (a.total ≤ b.total))

instance : IsTotal UserKarmaStats userDesc := ⟨fun a b => le_total b.total a.total⟩

instance : IsTrans UserKarmaStats userDesc := ⟨fun _ _ _ h₁ h₂ => le_trans h₂ h₁⟩

instance : IsTotal UserKarmaStats userAsc := ⟨fun a b => le_total a.total b.total⟩

instance : IsTrans UserKarmaStats userAsc := ⟨fun _ _ _ h₁ h₂ => le_trans h₁ h₂⟩

instance : IsTotal EventKarmaStats eventDesc := ⟨fun a b => le_total b.total a.total⟩

instance : IsTrans EventKarmaStats eventDesc := ⟨fun _ _ _ h₁ h₂ => le_trans h₂ h₁⟩

instance : IsTotal EventKarmaStats eventAsc := ⟨fun a b => le_total a.total b.total⟩

instance : IsTrans EventKarmaStats eventAsc := ⟨fun _ _ _ h₁ h₂ => le_trans h₁ h₂⟩

/-- `Karma.get_user_stats` (db.py 182-192): group the karma rows by
`given_to`, aggregate each group, `ORDER BY total` in the given direction,
`LIMIT limit`. -/
def Karma.get_user_stats (db : DB) (descending : Bool) (limit : Nat) : List UserKarmaStats :=
  let stats := (distinctKeys (db.karma.map (fun k => k.given_to))).map (Karma.userStatsFor db)
  (if descending then List.insertionSort userDesc stats
   else List.insertionSort userAsc stats).take limit

/-- `Karma.get_top_users` (db.py 162-164). -/
def Karma.get_top_users (db : DB) (limit : Nat) : List UserKarmaStats :=
  Karma.get_user_stats db true limit

/-- `Karma.get_bottom_users` (db.py 166-168). -/
def Karma.get_bottom_users (db : DB) (limit : Nat) : List UserKarmaStats :=
  Karma.get_user_stats db false limit

/-- `Karma.get_event_stats` (db.py 170-180): group the karma rows by
`given_for`, aggregate each group, `ORDER BY total` in the given direction,
`LIMIT limit`. -/
def Karma.get_event_stats (db : DB) (descending : Bool) (limit : Nat) : List EventKarmaStats :=
  let stats := (distinctKeys (db.karma.map (fun k => k.given_for))).map (Karma.eventStatsFor db)
  (if descending then List.insertionSort eventDesc stats
   else List.insertionSort eventAsc stats).take limit

/-- `Karma.get_best_events` (db.py 154-156). -/
def Karma.get_best_events (db : DB) (limit : Nat) : List EventKarmaStats :=
  Karma.get_event_stats db true limit

/-- `Karma.get_worst_events` (db.py 158-160). -/
def Karma.get_worst_events (db : DB) (limit : Nat) : List EventKarmaStats :=
  Karma.get_event_stats db false limit

/-- Lexicographic comparison of character lists by code point, used only by
the spec-side definitions below ("user_id ascending (lexicographic)"). -/
def charListLe : List Char → List Char → Bool
  | [], _ => true
  | _ :: _, [] => false
  | a :: as, b :: bs =>
      if a.toNat < b.toNat then true
      else if a.toNat = b.toNat then charListLe as bs
      else false

/-- Lexicographic string comparison for the spec-side definitions. -/
def strLe (a b : String) : Bool := charListLe a.data b.data

/-- Spec-side ordering of user aggregate rows, following the spec's words:
total descending, ties broken by user id ascending. For comparison with the
implementation's ordering, which sorts by total alone. -/
def specUserOrder (a b : KarmaCache) : Prop :=
  b.total < a.total ∨ (a.total = b.total ∧ strLe a.user_id b.user_id = true)

instance : DecidableRel specUserOrder := fun a b =>
  inferInstanceAs (Decidable (b.total < a.total ∨ (a.total = b.total ∧ strLe a.user_id b.user_id = true)))

/-- Spec-side `rank_of`, following the spec's words: the 1-based position
under `specUserOrder`; for comparison with `find_index_from_top`. -/
def spec_rank_of (db : DB) (user_id : String) : Int :=
  findIndexLoop (List.insertionSort specUserOrder db.karma_cache) user_id 0

/-- Spec-side `top(n)`, following the spec's words: same ordering and
tie-break as `rank_of`, descending, limited to `n`. -/
def spec_top (db : DB) (limit : Nat) : List KarmaCache :=
  (List.insertionSort specUserOrder db.karma_cache).take limit

/-- Spec-side ordering of event aggregate rows for `best_events`, following
the spec's words: sum descending, ties broken by event id ascending. -/
def specEventBest (a b : EventKarmaStats) : Prop :=
  b.total < a.total ∨ (a.total = b.total ∧ strLe a.event_id b.event_id = true)

instance : DecidableRel specEventBest := fun a b =>
  inferInstanceAs (Decidable (b.total < a.total ∨ (a.total = b.total ∧ strLe a.event_id b.event_id = true)))

/-- Spec-side `best_events(n)`, following the spec's words, for comparison
with `Karma.get_best_events`. -/
def spec_best_events (db : DB) (limit : Nat) : List EventKarmaStats :=
  let stats := (distinctKeys (db.karma.map (fun k => k.given_for))).map (Karma.eventStatsFor db)
  (List.insertionSort specEventBest stats).take limit

/-- A small concrete store: alice has upvoted bob's event `$e1` through the
vote action `$v1`. -/
def sampleDB : DB :=
  (KarmaBot.vote emptyDB "@bob:x" "@alice:x" "!room:x" "$e1" "$v1" 1 "msg" 1000).2

/-- A concrete store with a tie: `@b:x` and `@a:x` each received one upvote,
`@b:x`'s (on event `$e2`) stored first. -/
def tieDB : DB :=
  (KarmaBot.vote
    (KarmaBot.vote emptyDB "@b:x" "@u1:x" "!room:x" "$e2" "$f1" 1 "" 1).2
    "@a:x" "@u2:x" "!room:x" "$e1" "$f2" 1 "" 2).2

/-- The index of the first element at which a predicate holds, if any. -/
def firstPos {α : Type _} (p : α → Bool) : List α → Option Nat
  | [] => none
  | a :: l => if p a then some 0 else (firstPos p l).map (fun i => i + 1)

/-! ### Helper lemmas on the list-modelled SQL statements -/

theorem find?_map_of_pred {α : Type _} (p : α → Bool) (f : α → α) (l : List α)
    (hf : ∀ x, p (f x) = p x) : (l.map f).find? p = (l.find? p).map f := by
  induction l with
  | nil => rfl
  | cons a l ih =>
    by_cases h : p a = true
    · rw [List.map_cons, List.find?_cons_of_pos _ ((hf a).trans h),
        List.find?_cons_of_pos _ h]
      rfl
    · rw [List.map_cons, List.find?_cons_of_neg _ (by rw [hf a]; exact h),
        List.find?_cons_of_neg _ h, ih]

/-- What the row-level `KarmaCache.update` does to a `get_karma` lookup. -/
theorem get_karma_update (db : DB) (s : KarmaCache) (uid : String) :
    KarmaCache.get_karma (KarmaCache.update db s) uid =
      (KarmaCache.get_karma db uid).map (fun r =>
        if r.user_id == s.user_id then
          { r with total := s.total, positive := s.positive, negative := s.negative }
        else r) := by
  unfold KarmaCache.get_karma KarmaCache.update
  exact find?_map_of_pred _ _ _ (fun x => by
    by_cases hx : (x.user_id == s.user_id) = true <;> simp [hx])

/-- What the row-level `KarmaCache.insert` does to a `get_karma` lookup. -/
theorem get_karma_insert (db : DB) (s : KarmaCache) (uid : String) :
    KarmaCache.get_karma (KarmaCache.insert db s) uid =
      (KarmaCache.get_karma db uid).or (if s.user_id == uid then some s else none) := by
  unfold KarmaCache.get_karma KarmaCache.insert
  show (db.karma_cache ++ [s]).find? _ = _
  rw [List.find?_append]
  cases hs : (s.user_id == uid) <;> simp [List.find?, hs]

/-- What `KarmaCache.update_direct` does to the affected user's cache row,
as seen through `get_karma`. -/
theorem get_karma_update_direct (db : DB) (uid : String) (td pd nd : Int) (ig : Bool) :
    KarmaCache.get_karma (KarmaCache.update_direct db uid td pd nd ig) uid =
      match KarmaCache.get_karma db uid with
      | some e => some ⟨e.user_id, e.total + td, e.positive + pd, e.negative + nd⟩
      | none => if ig then none else some ⟨uid, td, pd, nd⟩ := by
  cases hfind : KarmaCache.get_karma db uid with
  | some e =>
    simp only [KarmaCache.update_direct, hfind]
    rw [get_karma_update, hfind]
    simp
  | none =>
    cases ig with
    | true => simp only [KarmaCache.update_direct, hfind]; simpa using hfind
    | false =>
      simp only [KarmaCache.update_direct, hfind]
      rw [show (if (false : Bool) = true then db
            else KarmaCache.insert db ⟨uid, td, pd, nd⟩) = KarmaCache.insert db ⟨uid, td, pd, nd⟩
          from rfl]
      rw [get_karma_insert, hfind]
      simp

theorem cacheInv_map_update (rows : List KarmaCache) (s : KarmaCache)
    (hs : s.total = s.positive - s.negative) (h : cacheInv rows) :
    cacheInv (rows.map (fun r => if r.user_id == s.user_id then
      { r with total := s.total, positive := s.positive, negative := s.negative } else r)) := by
  intro r hr
  simp only [List.mem_map] at hr
  obtain ⟨r₀, hr₀, rfl⟩ := hr
  by_cases hx : (r₀.user_id == s.user_id) = true
  · simpa [hx] using hs
  · simpa [hx] using h r₀ hr₀

theorem cacheInv_append_row (rows : List KarmaCache) (x : KarmaCache)
    (hx : x.total = x.positive - x.negative) (h : cacheInv rows) :
    cacheInv (rows ++ [x]) := by
  intro r hr
  rcases List.mem_append.mp hr with hr | hr
  · exact h r hr
  · rcases List.mem_singleton.mp hr with rfl
    exact hx

/-- `update_direct` preserves the aggregate invariant whenever the three
diffs themselves satisfy it. -/
theorem cacheInv_update_direct (db : DB) (uid : String) (td pd nd : Int) (ig : Bool)
    (hd : td = pd - nd) (h : cacheInv db.karma_cache) :
    cacheInv (KarmaCache.update_direct db uid td pd nd ig).karma_cache := by
  cases hfind : KarmaCache.get_karma db uid with
  | some e =>
    have he := h e (List.mem_of_find?_eq_some hfind)
    simp only [KarmaCache.update_direct, hfind]
    exact cacheInv_map_update db.karma_cache _ (by dsimp only; omega) h
  | none =>
    cases ig with
    | true =>
      simp only [KarmaCache.update_direct, hfind]
      simpa using h
    | false =>
      simp only [KarmaCache.update_direct, hfind]
      have : (if (false : Bool) = true then db
          else KarmaCache.insert db ⟨uid, td, pd, nd⟩) = KarmaCache.insert db ⟨uid, td, pd, nd⟩ :=
        rfl
      rw [this]
      exact cacheInv_append_row db.karma_cache _ hd h

theorem cacheInv_insert_op (db : DB) (k : Karma) (now : Int) (h : cacheInv db.karma_cache) :
    cacheInv (Karma.insert db k now).karma_cache := by
  unfold Karma.insert
  exact cacheInv_update_direct _ _ _ _ _ _ (by split_ifs <;> omega) h

theorem cacheInv_delete_op (db : DB) (k : Karma) (h : cacheInv db.karma_cache) :
    cacheInv (Karma.delete db k).karma_cache := by
  unfold Karma.delete
  exact cacheInv_update_direct _ _ _ _ _ _ (by split_ifs <;> omega) h

theorem cacheInv_update_op (db : DB) (k : Karma) (nv now : Int) (h : cacheInv db.karma_cache) :
    cacheInv (Karma.update db k nv now).karma_cache := by
  unfold Karma.update
  exact cacheInv_update_direct _ _ _ _ _ _ (by split_ifs <;> omega) h

theorem cacheInv_vote (db : DB) (gt gb gi gf gfrom : String) (v : Int) (c : String) (now : Int)
    (h : cacheInv db.karma_cache) :
    cacheInv ((KarmaBot.vote db gt gb gi gf gfrom v c now).2).karma_cache := by
  unfold KarmaBot.vote
  cases Karma.get db gt gb gi gf with
  | some e =>
    by_cases hv : (e.value == v) = true
    · simpa [hv] using h
    · simpa [hv] using cacheInv_update_op db e v now h
  | none => exact cacheInv_insert_op db _ now h

theorem cacheInv_redact (db : DB) (eid : String) (h : cacheInv db.karma_cache) :
    cacheInv (KarmaBot.redact db eid).karma_cache := by
  unfold KarmaBot.redact
  cases Karma.get_by_given_from db eid with
  | some k => exact cacheInv_delete_op db k h
  | none => exact h

theorem cacheInv_step (db : DB) (op : LedgerOp) (h : cacheInv db.karma_cache) :
    cacheInv (stepOp db op).karma_cache := by
  cases op with
  | vote gt gb gi gf gfrom v c n => exact cacheInv_vote db gt gb gi gf gfrom v c n h
  | redact eid => exact cacheInv_redact db eid h

theorem cacheInv_foldl (ops : List LedgerOp) :
    ∀ db : DB, cacheInv db.karma_cache → cacheInv (ops.foldl stepOp db).karma_cache := by
  induction ops with
  | nil => intro db h; exact h
  | cons op ops ih => intro db h; exact ih (stepOp db op) (cacheInv_step db op h)

/-- C1: after every sequence of the ledger's mutating operations (vote
applications, which insert records or flip them in place, and redactions,
which delete them), every user's aggregate row in `karma_cache` satisfies
`total = positive - negative`. -/
theorem C1_aggregate_invariant (ops : List LedgerOp) :
    cacheInv (runOps ops).karma_cache :=
  cacheInv_foldl ops emptyDB (fun r hr => absurd hr (List.not_mem_nil r))

/-- C2: the repair operation is broken in the code. Under the store state in
which bob has received a single upvote, the incrementally maintained
aggregate is `(total 1, positive 1, negative 0)`, but
`KarmaCache.recalculate` cannot reproduce it — `_set_karma`'s INSERT names a
column `karma` that the `karma_cache` table does not have, so the statement
is rejected and the transaction fails. -/
theorem C2_recalculate_fails :
    KarmaCache.get_karma sampleDB "@bob:x" = some ⟨"@bob:x", 1, 1, 0⟩ ∧
    KarmaCache.recalculate sampleDB "@bob:x" =
      Except.error "table karma_cache has no column named karma" :=
  ⟨rfl, rfl⟩

/-- C6: redacting an event id that is not the originating event of any vote
record finds nothing, is not an error, and leaves the datastore (ledger and
all aggregates) unchanged. -/
theorem C6_redact_not_found (db : DB) (eid : String)
    (h : ∀ k ∈ db.karma, k.given_from ≠ eid) :
    Karma.get_by_given_from db eid = none ∧ KarmaBot.redact db eid = db := by
  have hn : Karma.get_by_given_from db eid = none := by
    unfold Karma.get_by_given_from
    rw [List.find?_eq_none]
    intro k hk
    simpa using h k hk
  refine ⟨hn, ?_⟩
  unfold KarmaBot.redact
  rw [hn]

/-- Witness for C6 at a concrete store and a non-vote event id. -/
theorem C6_redact_not_found_witness :
    Karma.get_by_given_from sampleDB "$nonvote" = none ∧
    KarmaBot.redact sampleDB "$nonvote" = sampleDB :=
  C6_redact_not_found sampleDB "$nonvote" (by decide)

/-! ### Plumbing lemmas: what each mutating operation does to each table -/

theorem karma_update_direct (db : DB) (uid : String) (td pd nd : Int) (ig : Bool) :
    (KarmaCache.update_direct db uid td pd nd ig).karma = db.karma := by
  unfold KarmaCache.update_direct
  cases KarmaCache.get_karma db uid with
  | some e => rfl
  | none => cases ig <;> rfl

theorem get_karma_set_karma_table (db : DB) (l : List Karma) (uid : String) :
    KarmaCache.get_karma { db with karma := l } uid = KarmaCache.get_karma db uid := rfl

theorem karma_insert_row (db : DB) (self : Karma) (now : Int) :
    (Karma.insert db self now).karma = db.karma ++ [{ self with given_at := now }] := by
  unfold Karma.insert
  rw [karma_update_direct]

theorem karma_update_row (db : DB) (self : Karma) (nv now : Int) :
    (Karma.update db self nv now).karma = db.karma.map (fun k =>
      if keyMatch self.given_to self.given_by self.given_in self.given_for k
      then { k with given_from := self.given_from, value := nv, given_at := now } else k) := by
  unfold Karma.update
  rw [karma_update_direct]

theorem karma_delete_row (db : DB) (self : Karma) :
    (Karma.delete db self).karma = db.karma.filter (fun k =>
      !(keyMatch self.given_to self.given_by self.given_in self.given_for k)) := by
  unfold Karma.delete
  rw [karma_update_direct]

/-- The record-updating map of `Karma.update` does not change which rows
match a primary key. -/
theorem keyMatch_update_fun (gt gb gi gf : String) (self : Karma) (nv now : Int) (k : Karma) :
    keyMatch gt gb gi gf
      (if keyMatch self.given_to self.given_by self.given_in self.given_for k
       then { k with given_from := self.given_from, value := nv, given_at := now } else k)
    = keyMatch gt gb gi gf k := by
  by_cases h : keyMatch self.given_to self.given_by self.given_in self.given_for k = true
  · rw [if_pos h]
    simp [keyMatch]
  · rw [if_neg h]

theorem get_update_row (db : DB) (self : Karma) (nv now : Int) (gt gb gi gf : String) :
    Karma.get (Karma.update db self nv now) gt gb gi gf =
      (Karma.get db gt gb gi gf).map (fun k =>
        if keyMatch self.given_to self.given_by self.given_in self.given_for k
        then { k with given_from := self.given_from, value := nv, given_at := now } else k) := by
  unfold Karma.get
  rw [karma_update_row]
  exact find?_map_of_pred _ _ _ (fun k => keyMatch_update_fun gt gb gi gf self nv now k)

theorem get_insert_row (db : DB) (self : Karma) (now : Int) (gt gb gi gf : String) :
    Karma.get (Karma.insert db self now) gt gb gi gf =
      (Karma.get db gt gb gi gf).or
        (if keyMatch gt gb gi gf { self with given_at := now }
         then some { self with given_at := now } else none) := by
  unfold Karma.get
  rw [karma_insert_row, List.find?_append]
  congr 1
  cases h : keyMatch gt gb gi gf { self with given_at := now } <;> simp [List.find?, h]

/-- After `KarmaBot.vote`, a record for the voted key exists and carries the
vote's value, whatever branch was taken. -/
theorem get_after_vote (db : DB) (gt gb gi gf o : String) (v : Int) (c : String) (t : Int) :
    ∃ k, Karma.get ((KarmaBot.vote db gt gb gi gf o v c t).2) gt gb gi gf = some k ∧
      k.value = v := by
  cases hget : Karma.get db gt gb gi gf with
  | some e =>
    by_cases hv : (e.value == v) = true
    · refine ⟨e, ?_, by simpa using hv⟩
      simp only [KarmaBot.vote, hget, hv, if_true]
    · refine ⟨{ e with value := v, given_at := t }, ?_, rfl⟩
      simp only [KarmaBot.vote, hget, hv, Bool.false_eq_true, if_false]
      rw [get_update_row, hget]
      have hkm : keyMatch e.given_to e.given_by e.given_in e.given_for e = true := by
        simp [keyMatch]
      simp [hkm]
  | none =>
    refine ⟨⟨gt, gb, gi, gf, o, t, v, c⟩, ?_, rfl⟩
    simp only [KarmaBot.vote, hget]
    rw [get_insert_row, hget]
    simp [keyMatch]

/-- C4: applying the same `(recipient, voter, room, target)` vote with the
same polarity a second time returns the `unchanged` outcome and leaves the
whole datastore — the vote record and every aggregate row — exactly as it
was after the first application. -/
theorem C4_same_vote_unchanged (db : DB) (gt gb gi gf o1 o2 : String) (v : Int)
    (c1 c2 : String) (t1 t2 : Int) :
    KarmaBot.vote ((KarmaBot.vote db gt gb gi gf o1 v c1 t1).2) gt gb gi gf o2 v c2 t2 =
      (Outcome.unchanged, (KarmaBot.vote db gt gb gi gf o1 v c1 t1).2) := by
  obtain ⟨k, hk, hkv⟩ := get_after_vote db gt gb gi gf o1 v c1 t1
  have hb : (k.value == v) = true := by simpa using hkv
  generalize (KarmaBot.vote db gt gb gi gf o1 v c1 t1).2 = db1 at hk ⊢
  simp only [KarmaBot.vote, hk, hb, if_true]

/-- Effect of `Karma.update` on the receiver's cache row. -/
theorem update_cache_effect (db : DB) (self : Karma) (nv now : Int) (e : KarmaCache)
    (he : KarmaCache.get_karma db self.given_to = some e) :
    KarmaCache.get_karma (Karma.update db self nv now) self.given_to =
      some ⟨e.user_id,
        e.total + (nv - self.value),
        e.positive + ((if self.value > 0 then -self.value else 0) + (if nv > 0 then nv else 0)),
        e.negative + ((if self.value < 0 then self.value else 0) + (if nv < 0 then -nv else 0))⟩ := by
  unfold Karma.update
  rw [get_karma_update_direct, get_karma_set_karma_table, he]

/-- Effect of `Karma.delete` on the receiver's cache row. -/
theorem delete_cache_effect (db : DB) (self : Karma) (e : KarmaCache)
    (he : KarmaCache.get_karma db self.given_to = some e) :
    KarmaCache.get_karma (Karma.delete db self) self.given_to =
      some ⟨e.user_id,
        e.total + (-self.value),
        e.positive + (if self.value > 0 then -self.value else 0),
        e.negative + (if self.value < 0 then self.value else 0)⟩ := by
  unfold Karma.delete
  rw [get_karma_update_direct, get_karma_set_karma_table, he]

/-- Effect of `Karma.insert` on the receiver's cache row. -/
theorem insert_cache_effect (db : DB) (self : Karma) (now : Int) :
    KarmaCache.get_karma (Karma.insert db self now) self.given_to =
      match KarmaCache.get_karma db self.given_to with
      | some e => some ⟨e.user_id, e.total + self.value,
          e.positive + (if self.value > 0 then self.value else 0),
          e.negative + (if self.value < 0 then -self.value else 0)⟩
      | none => some ⟨self.given_to, self.value,
          (if self.value > 0 then self.value else 0),
          (if self.value < 0 then -self.value else 0)⟩ := by
  unfold Karma.insert
  rw [get_karma_update_direct, get_karma_set_karma_table]
  cases KarmaCache.get_karma db self.given_to <;> rfl

/-- The karma rows matching a fresh key after a vote on it followed by a
flip of that vote: exactly one, holding the new value, the first vote's
originating event id and content, and the second vote's timestamp. -/
theorem flip_filter (db : DB) (gt gb gi gf o1 c1 : String) (t1 t2 nv : Int)
    (hfresh : Karma.get db gt gb gi gf = none) :
    (Karma.update (Karma.insert db ⟨gt, gb, gi, gf, o1, 0, -1, c1⟩ t1)
        ⟨gt, gb, gi, gf, o1, t1, -1, c1⟩ nv t2).karma.filter (keyMatch gt gb gi gf)
      = [⟨gt, gb, gi, gf, o1, t2, nv, c1⟩] := by
  have hno : ∀ x ∈ db.karma, keyMatch gt gb gi gf x = false := by
    intro x hx
    simpa using List.find?_eq_none.mp hfresh x hx
  rw [karma_update_row, karma_insert_row]
  dsimp only
  rw [List.map_append, List.filter_append]
  have h1 : (db.karma.map (fun k => if keyMatch gt gb gi gf k
      then { k with given_from := o1, value := nv, given_at := t2 } else k)).filter
        (keyMatch gt gb gi gf) = [] := by
    rw [List.filter_eq_nil_iff]
    intro a ha
    rw [List.mem_map] at ha
    obtain ⟨x, hx, rfl⟩ := ha
    simp [hno x hx]
  rw [h1]
  simp [keyMatch]

/-- C5: on a key with no existing record, applying polarity −1 and then
polarity +1 leaves exactly one vote record for the key, with value +1, and
moves the recipient's aggregate relative to the state between the two votes
by exactly +2 on total — +1 on the positive counter and −1 on the negative
counter. -/
theorem C5_flip (db : DB) (gt gb gi gf o1 o2 c1 c2 : String) (t1 t2 : Int)
    (hfresh : Karma.get db gt gb gi gf = none) :
    ((KarmaBot.vote ((KarmaBot.vote db gt gb gi gf o1 (-1) c1 t1).2)
        gt gb gi gf o2 1 c2 t2).2).karma.filter (keyMatch gt gb gi gf)
      = [⟨gt, gb, gi, gf, o1, t2, 1, c1⟩] ∧
    (KarmaCache.get_karma ((KarmaBot.vote db gt gb gi gf o1 (-1) c1 t1).2) gt).isSome = true ∧
    KarmaCache.get_karma
        ((KarmaBot.vote ((KarmaBot.vote db gt gb gi gf o1 (-1) c1 t1).2)
          gt gb gi gf o2 1 c2 t2).2) gt =
      (KarmaCache.get_karma ((KarmaBot.vote db gt gb gi gf o1 (-1) c1 t1).2) gt).map
        (fun r => ⟨r.user_id, r.total + 2, r.positive + 1, r.negative - 1⟩) := by
  have hv1 : (KarmaBot.vote db gt gb gi gf o1 (-1) c1 t1).2
      = Karma.insert db ⟨gt, gb, gi, gf, o1, 0, -1, c1⟩ t1 := by
    simp only [KarmaBot.vote, hfresh]
  rw [hv1]
  have hget1 : Karma.get (Karma.insert db ⟨gt, gb, gi, gf, o1, 0, -1, c1⟩ t1) gt gb gi gf
      = some ⟨gt, gb, gi, gf, o1, t1, -1, c1⟩ := by
    rw [get_insert_row, hfresh]
    simp [keyMatch]
  have hv2 : (KarmaBot.vote (Karma.insert db ⟨gt, gb, gi, gf, o1, 0, -1, c1⟩ t1)
        gt gb gi gf o2 1 c2 t2).2
      = Karma.update (Karma.insert db ⟨gt, gb, gi, gf, o1, 0, -1, c1⟩ t1)
          ⟨gt, gb, gi, gf, o1, t1, -1, c1⟩ 1 t2 := by
    simp [KarmaBot.vote, hget1]
  rw [hv2]
  have hsome : (KarmaCache.get_karma (Karma.insert db ⟨gt, gb, gi, gf, o1, 0, -1, c1⟩ t1) gt).isSome
      = true := by
    rw [show KarmaCache.get_karma (Karma.insert db ⟨gt, gb, gi, gf, o1, 0, -1, c1⟩ t1) gt
          = KarmaCache.get_karma (Karma.insert db ⟨gt, gb, gi, gf, o1, 0, -1, c1⟩ t1)
              ((⟨gt, gb, gi, gf, o1, 0, -1, c1⟩ : Karma).given_to) from rfl,
        insert_cache_effect]
    cases KarmaCache.get_karma db ((⟨gt, gb, gi, gf, o1, 0, -1, c1⟩ : Karma).given_to) <;> rfl
  refine ⟨flip_filter db gt gb gi gf o1 c1 t1 t2 1 hfresh, hsome, ?_⟩
  obtain ⟨e, he⟩ := Option.isSome_iff_exists.mp hsome
  have he' : KarmaCache.get_karma (Karma.insert db ⟨gt, gb, gi, gf, o1, 0, -1, c1⟩ t1)
      ((⟨gt, gb, gi, gf, o1, t1, -1, c1⟩ : Karma).given_to) = some e := he
  rw [update_cache_effect _ _ _ _ _ he', he]
  simp only [Option.map_some]
  norm_num
  omega

/-- Witness for C5: the flip on a concrete fresh key of the empty store. -/
theorem C5_flip_witness :
    Karma.get emptyDB "@bob:x" "@alice:x" "!r:x" "$e1" = none ∧
    (((KarmaBot.vote ((KarmaBot.vote emptyDB "@bob:x" "@alice:x" "!r:x" "$e1" "$v1" (-1) "m" 1).2)
        "@bob:x" "@alice:x" "!r:x" "$e1" "$v2" 1 "n" 2).2).karma.filter
        (keyMatch "@bob:x" "@alice:x" "!r:x" "$e1")
      = [⟨"@bob:x", "@alice:x", "!r:x", "$e1", "$v1", 2, 1, "m"⟩] ∧
    (KarmaCache.get_karma
        ((KarmaBot.vote emptyDB "@bob:x" "@alice:x" "!r:x" "$e1" "$v1" (-1) "m" 1).2)
        "@bob:x").isSome = true ∧
    KarmaCache.get_karma
        ((KarmaBot.vote ((KarmaBot.vote emptyDB "@bob:x" "@alice:x" "!r:x" "$e1" "$v1" (-1) "m" 1).2)
          "@bob:x" "@alice:x" "!r:x" "$e1" "$v2" 1 "n" 2).2) "@bob:x" =
      (KarmaCache.get_karma
        ((KarmaBot.vote emptyDB "@bob:x" "@alice:x" "!r:x" "$e1" "$v1" (-1) "m" 1).2)
        "@bob:x").map
        (fun r => ⟨r.user_id, r.total + 2, r.positive + 1, r.negative - 1⟩)) :=
  ⟨rfl, C5_flip emptyDB "@bob:x" "@alice:x" "!r:x" "$e1" "$v1" "$v2" "m" "n" 1 2 rfl⟩

/-- C3 as stated fails on the code in two ways. First, applying a vote to a
recipient who had no aggregate row and immediately retracting it by the
originating event id does not restore the absent row: a zero-valued row
remains, which the code distinguishes from absence. Second, a valid
opposite-polarity re-vote goes through `Karma.update`, which keeps the
original `given_from`, so the re-vote's own event id is never recorded;
retracting by it finds nothing and reverses nothing, leaving bob's aggregate
at `(-1, 0, 1)` instead of the pre-vote `(1, 1, 0)`. -/
theorem C3_counterexample :
    (KarmaCache.get_karma emptyDB "@bob:x" = none ∧
      KarmaCache.get_karma
          (KarmaBot.redact
            (KarmaBot.vote emptyDB "@bob:x" "@alice:x" "!r:x" "$e1" "$v1" 1 "m" 1000).2 "$v1")
          "@bob:x"
        = some ⟨"@bob:x", 0, 0, 0⟩) ∧
    (KarmaCache.get_karma sampleDB "@bob:x" = some ⟨"@bob:x", 1, 1, 0⟩ ∧
      (KarmaBot.vote sampleDB "@bob:x" "@alice:x" "!room:x" "$e1" "$v2" (-1) "n" 2000).1
        = Outcome.updated ∧
      KarmaCache.get_karma
          (KarmaBot.redact
            (KarmaBot.vote sampleDB "@bob:x" "@alice:x" "!room:x" "$e1" "$v2" (-1) "n" 2000).2
            "$v2")
          "@bob:x"
        = some ⟨"@bob:x", -1, 0, 1⟩) :=
  ⟨⟨rfl, rfl⟩, ⟨rfl, rfl, rfl⟩⟩

/-- C3 amended: for a vote that creates a new record — a key with no
existing record, and an originating event id not carried by any record (as
the schema's uniqueness of `given_from` requires of a valid vote) —
immediately retracting it by that originating event id restores the
recipient's aggregate row bit-for-bit whenever the recipient already had an
aggregate row before the vote. -/
theorem C3_apply_retract_restores (db : DB) (gt gb gi gf o : String) (v : Int) (c : String)
    (t : Int) (r0 : KarmaCache)
    (hfresh : Karma.get db gt gb gi gf = none)
    (horigin : ∀ k ∈ db.karma, k.given_from ≠ o)
    (hrow : KarmaCache.get_karma db gt = some r0) :
    KarmaCache.get_karma
        (KarmaBot.redact (KarmaBot.vote db gt gb gi gf o v c t).2 o) gt = some r0 := by
  have hv1 : (KarmaBot.vote db gt gb gi gf o v c t).2
      = Karma.insert db ⟨gt, gb, gi, gf, o, 0, v, c⟩ t := by
    simp only [KarmaBot.vote, hfresh]
  rw [hv1]
  have hfind : Karma.get_by_given_from (Karma.insert db ⟨gt, gb, gi, gf, o, 0, v, c⟩ t) o
      = some ⟨gt, gb, gi, gf, o, t, v, c⟩ := by
    unfold Karma.get_by_given_from
    rw [karma_insert_row, List.find?_append]
    have hnone : db.karma.find? (fun k => k.given_from == o) = none := by
      rw [List.find?_eq_none]
      intro k hk
      simpa using horigin k hk
    rw [hnone]
    simp [List.find?]
  unfold KarmaBot.redact
  rw [hfind]
  have he' : KarmaCache.get_karma (Karma.insert db ⟨gt, gb, gi, gf, o, 0, v, c⟩ t)
      ((⟨gt, gb, gi, gf, o, t, v, c⟩ : Karma).given_to)
      = some ⟨r0.user_id, r0.total + v,
          r0.positive + (if v > 0 then v else 0),
          r0.negative + (if v < 0 then -v else 0)⟩ := by
    rw [show KarmaCache.get_karma (Karma.insert db ⟨gt, gb, gi, gf, o, 0, v, c⟩ t)
          ((⟨gt, gb, gi, gf, o, t, v, c⟩ : Karma).given_to)
        = KarmaCache.get_karma (Karma.insert db ⟨gt, gb, gi, gf, o, 0, v, c⟩ t)
          ((⟨gt, gb, gi, gf, o, 0, v, c⟩ : Karma).given_to) from rfl,
      insert_cache_effect]
    rw [show KarmaCache.get_karma db ((⟨gt, gb, gi, gf, o, 0, v, c⟩ : Karma).given_to)
          = KarmaCache.get_karma db gt from rfl, hrow]
  rw [delete_cache_effect _ _ _ he']
  have : r0 = ⟨r0.user_id, r0.total, r0.positive, r0.negative⟩ := rfl
  rw [this]
  simp only [Option.some.injEq, KarmaCache.mk.injEq]
  refine ⟨trivial, by omega, by split_ifs <;> omega, by split_ifs <;> omega⟩

/-- Witness for C3 amended: bob already has a row in `sampleDB`; a second
vote from carol on a fresh event, retracted at once, restores it. -/
theorem C3_apply_retract_restores_witness :
    Karma.get sampleDB "@bob:x" "@carol:x" "!r:x" "$e2" = none ∧
    (∀ k ∈ sampleDB.karma, k.given_from ≠ "$v9") ∧
    KarmaCache.get_karma sampleDB "@bob:x" = some ⟨"@bob:x", 1, 1, 0⟩ ∧
    KarmaCache.get_karma
        (KarmaBot.redact
          (KarmaBot.vote sampleDB "@bob:x" "@carol:x" "!r:x" "$e2" "$v9" (-1) "m" 5).2 "$v9")
        "@bob:x" = some ⟨"@bob:x", 1, 1, 0⟩ :=
  ⟨by decide, by decide, by decide,
    C3_apply_retract_restores sampleDB "@bob:x" "@carol:x" "!r:x" "$e2" "$v9" (-1) "m" 5
      ⟨"@bob:x", 1, 1, 0⟩ (by decide) (by decide) (by decide)⟩

/-- C10: an opposite-polarity re-vote keeps the original vote action's event
id (`given_from`) on the existing record and never records the correction's
event id anywhere in the ledger: `is_vote_event` stays true for the original
action's id and false for the correction's, and a retraction lookup by the
correction's id finds nothing. -/
theorem C10_origin_preserved (db : DB) (gt gb gi gf o c : String) (v t : Int) (e : Karma)
    (hget : Karma.get db gt gb gi gf = some e)
    (hneq : e.value ≠ v)
    (ho : ∀ k ∈ db.karma, k.given_from ≠ o) :
    (Karma.get ((KarmaBot.vote db gt gb gi gf o v c t).2) gt gb gi gf).map
        (fun k => k.given_from) = some e.given_from ∧
    Karma.is_vote_event ((KarmaBot.vote db gt gb gi gf o v c t).2) e.given_from = true ∧
    Karma.is_vote_event ((KarmaBot.vote db gt gb gi gf o v c t).2) o = false ∧
    Karma.get_by_given_from ((KarmaBot.vote db gt gb gi gf o v c t).2) o = none := by
  have hbv : (e.value == v) = false := by simpa using hneq
  have hv' : (KarmaBot.vote db gt gb gi gf o v c t).2 = Karma.update db e v t := by
    simp only [KarmaBot.vote, hget, hbv, Bool.false_eq_true, if_false]
  rw [hv']
  have hmem : e ∈ db.karma := List.mem_of_find?_eq_some hget
  have hkm : keyMatch e.given_to e.given_by e.given_in e.given_for e = true := by
    simp [keyMatch]
  have hall : ∀ x ∈ (Karma.update db e v t).karma, x.given_from ≠ o := by
    rw [karma_update_row]
    intro x hx
    rw [List.mem_map] at hx
    obtain ⟨x₀, hx₀, rfl⟩ := hx
    by_cases hc : keyMatch e.given_to e.given_by e.given_in e.given_for x₀ = true
    · rw [if_pos hc]
      exact ho e hmem
    · rw [if_neg hc]
      exact ho x₀ hx₀
  refine ⟨?_, ?_, ?_, ?_⟩
  · rw [get_update_row, hget]
    simp [hkm]
  · unfold Karma.is_vote_event
    rw [karma_update_row, List.any_eq_true]
    refine ⟨_, List.mem_map.mpr ⟨e, hmem, rfl⟩, ?_⟩
    rw [if_pos hkm]
    simp
  · unfold Karma.is_vote_event
    rw [List.any_eq_false]
    intro x hx
    simpa using hall x hx
  · unfold Karma.get_by_given_from
    rw [List.find?_eq_none]
    intro x hx
    simpa using hall x hx

/-- Witness for C10: alice's +1 on bob's `$e1` (action `$v1`) corrected to a
−1 through the fresh action `$v2`. -/
theorem C10_origin_preserved_witness :
    Karma.get sampleDB "@bob:x" "@alice:x" "!room:x" "$e1"
      = some ⟨"@bob:x", "@alice:x", "!room:x", "$e1", "$v1", 1000, 1, "msg"⟩ ∧
    ((Karma.get ((KarmaBot.vote sampleDB "@bob:x" "@alice:x" "!room:x" "$e1" "$v2"
          (-1) "n" 2000).2) "@bob:x" "@alice:x" "!room:x" "$e1").map (fun k => k.given_from)
        = some "$v1" ∧
      Karma.is_vote_event ((KarmaBot.vote sampleDB "@bob:x" "@alice:x" "!room:x" "$e1" "$v2"
          (-1) "n" 2000).2) "$v1" = true ∧
      Karma.is_vote_event ((KarmaBot.vote sampleDB "@bob:x" "@alice:x" "!room:x" "$e1" "$v2"
          (-1) "n" 2000).2) "$v2" = false ∧
      Karma.get_by_given_from ((KarmaBot.vote sampleDB "@bob:x" "@alice:x" "!room:x" "$e1" "$v2"
          (-1) "n" 2000).2) "$v2" = none) :=
  ⟨by decide,
    C10_origin_preserved sampleDB "@bob:x" "@alice:x" "!room:x" "$e1" "$v2" "n" (-1) 2000
      ⟨"@bob:x", "@alice:x", "!room:x", "$e1", "$v1", 1000, 1, "msg"⟩
      (by decide) (by decide) (by decide)⟩

theorem firstPos_eq_none {α : Type _} (p : α → Bool) (l : List α) :
    firstPos p l = none ↔ ∀ x ∈ l, ¬p x = true := by
  induction l with
  | nil => simp [firstPos]
  | cons a l ih =>
    by_cases h : p a = true
    · simp [firstPos, h]
    · simp [firstPos, h, ih]

theorem findIndexLoop_firstPos (uid : String) (l : List KarmaCache) :
    ∀ i : Int, findIndexLoop l uid i =
      match firstPos (fun r => r.user_id == uid) l with
      | some j => i + (j : Int) + 1
      | none => -1 := by
  induction l with
  | nil => intro i; rfl
  | cons r rest ih =>
    intro i
    by_cases h : (r.user_id == uid) = true
    · show (if (r.user_id == uid) = true then i + 1 else findIndexLoop rest uid (i + 1)) = _
      rw [if_pos h]
      rw [show firstPos (fun r => r.user_id == uid) (r :: rest) = some 0 from by
        unfold firstPos; rw [if_pos h]]
      simp
    · show (if (r.user_id == uid) = true then i + 1 else findIndexLoop rest uid (i + 1)) = _
      rw [if_neg h, ih (i + 1)]
      rw [show firstPos (fun r => r.user_id == uid) (r :: rest)
            = (firstPos (fun r => r.user_id == uid) rest).map (fun x => x + 1) from by
        unfold firstPos; rw [if_neg h]; cases rest <;> rfl]
      cases firstPos (fun r => r.user_id == uid) rest with
      | some j =>
        show (i + 1) + (j : Int) + 1 = i + ((j + 1 : Nat) : Int) + 1
        push_cast
        ring
      | none => rfl

/-- C7 as stated fails on the code: in `tieDB` both users have total 1 and
`@a:x` precedes `@b:x` in user-id order, so a rank with the tie broken by
user id ascending (the spec-side `spec_rank_of`) puts `@a:x` at 1;
`find_index_from_top`, which orders by total alone and keeps stored order on
ties, returns 2. -/
theorem C7_counterexample :
    KarmaCache.find_index_from_top tieDB "@a:x" = 2 ∧ spec_rank_of tieDB "@a:x" = 1 :=
  ⟨by decide, by decide⟩

/-- C7 amended: `find_index_from_top` returns one more than the index of the
first cache row carrying the user's id in the cache sorted by total
descending with ties kept in stored order (no user-id tie-break), and the
sentinel −1 exactly when the user has no aggregate row. -/
theorem C7_rank_characterization (db : DB) (uid : String) :
    (KarmaCache.find_index_from_top db uid =
      match firstPos (fun r => r.user_id == uid)
          (List.insertionSort cacheDesc db.karma_cache) with
      | some i => (i : Int) + 1
      | none => -1) ∧
    (KarmaCache.find_index_from_top db uid = -1 ↔ ∀ r ∈ db.karma_cache, r.user_id ≠ uid) := by
  have hmain : KarmaCache.find_index_from_top db uid =
      match firstPos (fun r => r.user_id == uid)
          (List.insertionSort cacheDesc db.karma_cache) with
      | some i => (i : Int) + 1
      | none => -1 := by
    unfold KarmaCache.find_index_from_top
    rw [findIndexLoop_firstPos]
    cases firstPos (fun r => r.user_id == uid) (List.insertionSort cacheDesc db.karma_cache) with
    | some j => simp
    | none => rfl
  refine ⟨hmain, ?_⟩
  rw [hmain]
  cases hfp : firstPos (fun r => r.user_id == uid)
      (List.insertionSort cacheDesc db.karma_cache) with
  | some j =>
    show ((j : Int) + 1 = -1) ↔ _
    constructor
    · intro hj
      exfalso
      omega
    · intro hall
      exfalso
      have : firstPos (fun r => r.user_id == uid)
          (List.insertionSort cacheDesc db.karma_cache) = none := by
        rw [firstPos_eq_none]
        intro x hx
        have hxmem : x ∈ db.karma_cache := (List.mem_insertionSort cacheDesc).mp hx
        simpa using hall x hxmem
      rw [this] at hfp
      exact Option.noConfusion hfp
  | none =>
    show ((-1 : Int) = -1) ↔ _
    constructor
    · intro _ r hr
      have := (firstPos_eq_none _ _).mp hfp r ((List.mem_insertionSort cacheDesc).mpr hr)
      simpa using this
    · intro _
      rfl

/-- C8 as stated fails on the code: in `tieDB` both cache rows have total 1,
and `get_high` returns `@b:x` before `@a:x` (the stored order), while the
spec-side ordering with the user-id-ascending tie-break returns `@a:x`
first. -/
theorem C8_counterexample :
    KarmaCache.get_high tieDB 10 ≠ spec_top tieDB 10 ∧
    (KarmaCache.get_high tieDB 10).map (fun r => (r.user_id, r.total))
      = [("@b:x", 1), ("@a:x", 1)] ∧
    (spec_top tieDB 10).map (fun r => (r.user_id, r.total))
      = [("@a:x", 1), ("@b:x", 1)] :=
  ⟨by decide, by decide, by decide⟩

/-- C8 amended: `get_high`/`get_low` (and the grouped user-stats variants
the bot's top/bottom commands read) return at most `n` rows ordered by total
descending respectively ascending, drawn from the aggregate rows; the order
among equal totals is the stored order, not user id ascending. -/
theorem C8_top_bottom_sorted (db : DB) (n : Nat) :
    List.Sorted cacheDesc (KarmaCache.get_high db n) ∧
    List.Sorted cacheAsc (KarmaCache.get_low db n) ∧
    (KarmaCache.get_high db n).length ≤ n ∧
    (KarmaCache.get_low db n).length ≤ n ∧
    (∀ r ∈ KarmaCache.get_high db n, r ∈ db.karma_cache) ∧
    (∀ r ∈ KarmaCache.get_low db n, r ∈ db.karma_cache) ∧
    List.Sorted userDesc (Karma.get_top_users db n) ∧
    List.Sorted userAsc (Karma.get_bottom_users db n) ∧
    (Karma.get_top_users db n).length ≤ n ∧
    (Karma.get_bottom_users db n).length ≤ n := by
  refine ⟨?_, ?_, ?_, ?_, ?_, ?_, ?_, ?_, ?_, ?_⟩
  · exact List.Pairwise.sublist (List.take_sublist n _)
      (List.sorted_insertionSort cacheDesc db.karma_cache)
  · exact List.Pairwise.sublist (List.take_sublist n _)
      (List.sorted_insertionSort cacheAsc db.karma_cache)
  · exact List.length_take_le n _
  · exact List.length_take_le n _
  · intro r hr
    exact (List.mem_insertionSort cacheDesc).mp (List.take_subset n _ hr)
  · intro r hr
    exact (List.mem_insertionSort cacheAsc).mp (List.take_subset n _ hr)
  · exact List.Pairwise.sublist (List.take_sublist n _)
      (List.sorted_insertionSort userDesc _)
  · exact List.Pairwise.sublist (List.take_sublist n _)
      (List.sorted_insertionSort userAsc _)
  · exact List.length_take_le n _
  · exact List.length_take_le n _

/-- C9 as stated fails on the code: in `tieDB` both events have sum 1, and
`get_best_events` returns `$e2` before `$e1` (order of first appearance in
the ledger), while the event-id-ascending tie-break of the spec-side
`spec_best_events` returns `$e1` first. -/
theorem C9_counterexample :
    Karma.get_best_events tieDB 10 ≠ spec_best_events tieDB 10 ∧
    (Karma.get_best_events tieDB 10).map (fun s => (s.event_id, s.total))
      = [("$e2", 1), ("$e1", 1)] ∧
    (spec_best_events tieDB 10).map (fun s => (s.event_id, s.total))
      = [("$e1", 1), ("$e2", 1)] :=
  ⟨by decide, by decide, by decide⟩

/-- C9 amended: best/worst events group the vote records by target event id,
aggregate each group as `eventStatsFor` does (sum of polarities; positive is
the sum of the positive votes; negative is the absolute sum of the negative
votes), order by that sum — descending for best, ascending for worst — and
return at most `n` rows; the order among equal sums is the order of first
appearance, not event id ascending. -/
theorem C9_event_stats_sorted (db : DB) (n : Nat) :
    List.Sorted eventDesc (Karma.get_best_events db n) ∧
    List.Sorted eventAsc (Karma.get_worst_events db n) ∧
    (Karma.get_best_events db n).length ≤ n ∧
    (Karma.get_worst_events db n).length ≤ n ∧
    (∀ s ∈ Karma.get_best_events db n, s = Karma.eventStatsFor db s.event_id) ∧
    (∀ s ∈ Karma.get_worst_events db n, s = Karma.eventStatsFor db s.event_id) := by
  refine ⟨?_, ?_, ?_, ?_, ?_, ?_⟩
  · exact List.Pairwise.sublist (List.take_sublist n _)
      (List.sorted_insertionSort eventDesc _)
  · exact List.Pairwise.sublist (List.take_sublist n _)
      (List.sorted_insertionSort eventAsc _)
  · exact List.length_take_le n _
  · exact List.length_take_le n _
  · intro s hs
    have h1 : s ∈ List.insertionSort eventDesc
        ((distinctKeys (db.karma.map (fun k => k.given_for))).map (Karma.eventStatsFor db)) :=
      List.take_subset n _ hs
    have h2 := (List.mem_insertionSort eventDesc).mp h1
    rw [List.mem_map] at h2
    obtain ⟨k, _, rfl⟩ := h2
    rfl
  · intro s hs
    have h1 : s ∈ List.insertionSort eventAsc
        ((distinctKeys (db.karma.map (fun k => k.given_for))).map (Karma.eventStatsFor db)) :=
      List.take_subset n _ hs
    have h2 := (List.mem_insertionSort eventAsc).mp h1
    rw [List.mem_map] at h2
    obtain ⟨k, _, rfl⟩ := h2
    rfl
